import Mathlib

/-
Verification of the UI-state synchronization layer (UIManager service,
ui-state types, and the SSE stream demultiplexer hook).

The definitions below are a shallow embedding of the TypeScript source:
  - src/types/ui-state.ts          : the state and message shapes
  - src/services/UIManager.ts      : the reducer / state manager
  - src/hooks/useAgUIClientWithUIManager.ts : the stream demultiplexer

JavaScript objects whose key order is observable are modelled as ordered
association lists; optional / possibly-undefined fields are modelled as
Option; JSON values manipulated by the state-delta path machinery are
modelled by an untyped JValue tree; a thrown TypeError is modelled with
Except.  The 2000 ms auto-hide timeout is modelled as a pending-timer flag
together with an explicit timer-fire event.
-/

/-- status field of MediaUploadState: 'idle' | 'uploading' | 'completed' | 'error'. -/
inductive UploadStatus where
  | idle
  | uploading
  | completed
  | error
deriving DecidableEq, Repr

/-- style field of ButtonState: 'primary' | 'secondary' | 'danger'. -/
inductive ButtonStyle where
  | primary
  | secondary
  | danger
deriving DecidableEq, Repr

/-- ContentState from ui-state.ts: `{ text?: string; visible: boolean }`. -/
structure ContentState where
  text : Option String
  visible : Bool
deriving DecidableEq, Repr

/-- MediaUploadState from ui-state.ts. -/
structure MediaUploadState where
  visible : Bool
  status : UploadStatus
  acceptedTypes : Option (List String)
  multiple : Option Bool
  label : Option String
deriving DecidableEq, Repr

/-- ButtonState from ui-state.ts. -/
structure ButtonState where
  visible : Bool
  enabled : Bool
  label : Option String
  action : Option String
  style : Option ButtonStyle
deriving DecidableEq, Repr

/-- UIState from ui-state.ts.  `buttons : Record of string to ButtonState` is a
plain JS object used as a map; key insertion order is observable, so it is
modelled as an ordered association list. -/
structure UIState where
  content : ContentState
  mediaUpload : MediaUploadState
  buttons : List (String × ButtonState)
deriving DecidableEq, Repr

/-- JS object property write `o[k] = v`: updates the value in place if the key
exists (keeping its position), otherwise appends the key at the end. -/
def setKey {β : Type} : List (String × β) → String → β → List (String × β)
  | [], k, v => [(k, v)]
  | (k1, v1) :: rest, k, v =>
      if k1 = k then (k, v) :: rest else (k1, v1) :: setKey rest k v

/-- JS object property read `o[k]`: none models undefined. -/
def lookupKey {β : Type} : List (String × β) → String → Option β
  | [], _ => none
  | (k1, v1) :: rest, k => if k1 = k then some v1 else lookupKey rest k

/-- props bag of a ui-directive (ui-state.ts).  Every field is optional.
The source always reads the bag through optional chaining
(`directive.props?.x`), so an absent bag is observationally identical to a
bag with every field absent, and the bag is modelled directly. -/
structure DirectiveProps where
  text : Option String := none
  visible : Option Bool := none
  accept : Option String := none
  multiple : Option Bool := none
  uploadLabel : Option String := none
  buttonId : Option String := none
  buttonLabel : Option String := none
  enabled : Option Bool := none
  action : Option String := none
  style : Option ButtonStyle := none
deriving DecidableEq, Repr

/-- action field of a ui-directive.  At runtime the action arrives as a JSON
string; the reducer's switch matches the nine known literals and anything
else falls through (no default case), represented by `other`. -/
inductive UIAction where
  | showContent
  | updateContent
  | hideContent
  | showUpload
  | hideUpload
  | cancelUpload
  | showButton
  | hideButton
  | updateButton
  | other (s : String)
deriving DecidableEq, Repr

/-- a ui-directive message. -/
structure UIDirective where
  action : UIAction
  props : DirectiveProps := {}
deriving DecidableEq, Repr

/-- UIManager.getInitialState (UIManager.ts lines 30-44). -/
def getInitialState : UIState :=
  { content := { visible := false, text := some "" }
    mediaUpload :=
      { visible := false
        status := .idle
        acceptedTypes := some ["image/*"]
        multiple := some false
        label := none }
    buttons := [] }

/-- UIManager.applyUIDirective (UIManager.ts lines 136-235), value-level
semantics: the state value the method returns.  JS string truthiness
(`x || y`, `x ? a : b`, `x && o`) treats the empty string as falsy, and
`??` only falls through on undefined; both are reflected literally.
(Aliasing of the buttons object through the shallow `{...state}` copy is a
separate, heap-level concern modelled below by applyUIDirectiveRef.) -/
def applyUIDirective (state : UIState) (directive : UIDirective) : UIState :=
  match directive.action with
  | .showContent =>
      { state with content :=
          { visible := true
            text := some ((directive.props.text).getD "") } }
  | .updateContent =>
      { state with content :=
          { text := (directive.props.text).orElse (fun _ => state.content.text)
            visible := (directive.props.visible).getD state.content.visible } }
  | .hideContent =>
      { state with content := { state.content with visible := false } }
  | .showUpload =>
      { state with mediaUpload :=
          { visible := true
            status := .idle
            acceptedTypes := some
              (match directive.props.accept with
               | some a => if a = "" then ["image/*"] else [a]
               | none => ["image/*"])
            multiple := some ((directive.props.multiple).getD false)
            label := directive.props.uploadLabel } }
  | .hideUpload =>
      { state with mediaUpload :=
          { state.mediaUpload with visible := false, status := .idle } }
  | .cancelUpload =>
      { state with mediaUpload :=
          { state.mediaUpload with visible := false, status := .idle } }
  | .showButton =>
      match directive.props.buttonId with
      | some id =>
          if id = "" then state
          else
            let b : ButtonState :=
              { visible := true
                enabled := (directive.props.enabled).getD true
                label := directive.props.buttonLabel
                action := directive.props.action
                style := some ((directive.props.style).getD .primary) }
            { state with buttons := setKey state.buttons id b }
      | none => state
  | .hideButton =>
      match directive.props.buttonId with
      | some id =>
          if id = "" then state
          else
            match lookupKey state.buttons id with
            | some b =>
                let b2 : ButtonState := { b with visible := false }
                { state with buttons := setKey state.buttons id b2 }
            | none => state
      | none => state
  | .updateButton =>
      match directive.props.buttonId with
      | some id =>
          if id = "" then state
          else
            match lookupKey state.buttons id with
            | some b =>
                let b2 : ButtonState :=
                  { visible := b.visible
                    enabled := (directive.props.enabled).getD b.enabled
                    label :=
                      match directive.props.buttonLabel with
                      | some l => if l = "" then b.label else some l
                      | none => b.label
                    action :=
                      match directive.props.action with
                      | some a => if a = "" then b.action else some a
                      | none => b.action
                    style := (directive.props.style).orElse (fun _ => b.style) }
                { state with buttons := setKey state.buttons id b2 }
            | none => state
      | none => state
  | .other _ => state

/-- wire shape of snapshot.state (ui-state.ts: `state: UIState | {ui: UIState}`). -/
inductive SnapshotState where
  | nested (ui : UIState)
  | flat (s : UIState)
deriving DecidableEq, Repr

/-- UIManager.applySnapshot (UIManager.ts lines 86-101), state computation.
The source tests whether the string key `ui` occurs in snapshot.state; a
wrapped object `{ui: ...}` has exactly the key `ui`, and a flat UIState
object has exactly the keys content, mediaUpload and buttons, so the test
holds exactly for the nested shape. -/
def applySnapshotState (snap : SnapshotState) : UIState :=
  match snap with
  | .nested u => u
  | .flat s => s

/-- UIManager instance data: the owned state plus the subscribed listeners.
Listeners are JS closures held in a `Set`, iterated in insertion order with
no duplicates; they are modelled by identifiers in an ordered list. -/
structure UIManager where
  state : UIState
  listeners : List Nat
deriving DecidableEq, Repr

/-- UIManager.notifyListeners (lines 60-64): calls every listener with the
current state.  The calls are returned as an ordered event list. -/
def notifyListeners (m : UIManager) : List (Nat × UIState) :=
  m.listeners.map (fun l => (l, m.state))

/-- UIManager.applyDirective (lines 76-80): computes the new state, stores
it, and notifies the listeners. -/
def applyDirective (m : UIManager) (d : UIDirective) :
    UIManager × List (Nat × UIState) :=
  let m2 : UIManager := { m with state := applyUIDirective m.state d }
  (m2, notifyListeners m2)

/-- UIManager.applySnapshot (lines 86-101): replaces the state and notifies. -/
def applySnapshot (m : UIManager) (snap : SnapshotState) :
    UIManager × List (Nat × UIState) :=
  let m2 : UIManager := { m with state := applySnapshotState snap }
  (m2, notifyListeners m2)

/-- UIManager.reset (lines 128-131): replaces the state with the initial
state and notifies. -/
def reset (m : UIManager) : UIManager × List (Nat × UIState) :=
  let m2 : UIManager := { m with state := getInitialState }
  (m2, notifyListeners m2)

/-- a message reaching UIManager.processMessage, tagged at runtime by its
`type` string.  `unrecognized t` stands for a message whose runtime tag t
is none of the three handled tags (ui-directive, state-snapshot,
state-delta); state-delta messages are dispatched to applyDelta, whose
state-level semantics applyStateDelta is modelled separately below on the
untyped JSON representation of the state. -/
inductive IncomingMessage where
  | uiDirective (d : UIDirective)
  | stateSnapshot (s : SnapshotState)
  | unrecognized (t : String)
deriving DecidableEq, Repr

/-- UIManager.processMessage (lines 115-123): if / else-if dispatch on the
type tag; a tag matching none of the branches does nothing (no state
change, no notification, no exception). -/
def processMessage (m : UIManager) (msg : IncomingMessage) :
    UIManager × List (Nat × UIState) :=
  match msg with
  | .uiDirective d => applyDirective m d
  | .stateSnapshot s => applySnapshot m s
  | .unrecognized _ => (m, [])

/-- a JSON value, the untyped representation the state-delta machinery works
on (the state is deep-copied via JSON.parse(JSON.stringify(state)) before
patching, which is the identity on this tree representation; object key
order is preserved by the association-list encoding). -/
inductive JValue where
  | null
  | bool (b : Bool)
  | num (n : Int)
  | str (s : String)
  | arr (elems : List JValue)
  | obj (fields : List (String × JValue))
deriving Repr

/-- structural equality on JValue (JSON deep equality). -/
def JValue.beq : JValue → JValue → Bool
  | .null, .null => true
  | .bool a, .bool b => a == b
  | .num a, .num b => a == b
  | .str a, .str b => a == b
  | .arr xs, .arr ys =>
      match xs, ys with
      | [], [] => true
      | x :: xs1, y :: ys1 => x.beq y && JValue.beq (.arr xs1) (.arr ys1)
      | _, _ => false
  | .obj xs, .obj ys =>
      match xs, ys with
      | [], [] => true
      | (k1, x) :: xs1, (k2, y) :: ys1 =>
          k1 == k2 && x.beq y && JValue.beq (.obj xs1) (.obj ys1)
      | _, _ => false
  | _, _ => false

instance : BEq JValue := ⟨JValue.beq⟩

/-- JS truthiness of a JSON value (`if (!current[k])`). -/
def jsTruthy : JValue → Bool
  | .null => false
  | .bool b => b
  | .num n => n != 0
  | .str s => s != ""
  | .arr _ => true
  | .obj _ => true

/-- JS property read `v[k]` on a JSON value; none models undefined.  Array
reads support decimal element indices; array object properties such as
length, out-of-range and non-canonical numeric keys are not exercised by
the state-delta paths of this repository and read as undefined. -/
def getProp (v : JValue) (k : String) : Option JValue :=
  match v with
  | .obj fields => lookupKey fields k
  | .arr elems => (k.toNat?).bind (fun i => elems.get? i)
  | _ => none

/-- replaces index i, padding with null beyond the end (JS sparse slots
serialize as null). -/
def arrSet : List JValue → Nat → JValue → List JValue
  | _ :: rest, 0, x => x :: rest
  | e :: rest, i + 1, x => e :: arrSet rest i x
  | [], 0, x => [x]
  | [], i + 1, x => .null :: arrSet [] i x

/-- JS property write `v[k] = x` in strict mode: allowed on objects and
arrays, a TypeError on primitives.  Non-numeric keys on arrays become
array object properties invisible to getProp; they are not exercised by
this repository's paths and are modelled as absorbed. -/
def setProp (v : JValue) (k : String) (x : JValue) : Except String JValue :=
  match v with
  | .obj fields => .ok (.obj (setKey fields k x))
  | .arr elems =>
      match k.toNat? with
      | some i => .ok (.arr (arrSet elems i x))
      | none => .ok (.arr elems)
  | _ => .error "TypeError"

/-- JS `delete v[k]`: removes an object key; on arrays a numeric slot
becomes a hole (serialized null); on primitives delete is a no-op and does
not throw. -/
def delProp (v : JValue) (k : String) : JValue :=
  match v with
  | .obj fields => .obj (fields.filter (fun f => f.1 != k))
  | .arr elems =>
      match k.toNat? with
      | some i => if i < elems.length then .arr (arrSet elems i .null) else .arr elems
      | none => .arr elems
  | prim => prim

/-- op field of one JSON-Patch operation (ui-state.ts StateDelta). -/
inductive PatchOpKind where
  | add
  | remove
  | replace
  | move
  | copy
  | test
deriving DecidableEq, Repr

/-- one JSON-Patch operation of a state-delta. -/
structure PatchOp where
  op : PatchOpKind
  path : String
  value : Option JValue := none

/-- character-level splitter used to model JS String.split: accumulates the
current segment and cuts at every slash. -/
def splitOnCharAux : List Char → List Char → List String
  | [], acc => [String.mk acc.reverse]
  | c :: rest, acc =>
      if c = '/' then String.mk acc.reverse :: splitOnCharAux rest []
      else splitOnCharAux rest (c :: acc)

/-- JS `path.split('/')`: every segment between slashes, including the empty
ones. -/
def splitSlash (s : String) : List String := splitOnCharAux s.data []

/-- path split of applyStateDelta (line 245): `patch.path.split('/')` then
`filter(p => p)`, dropping the empty (falsy) segments. -/
def pathSegments (path : String) : List String :=
  (splitSlash path).filter (fun s => s ≠ "")

/-- path normalization of applyStateDelta (lines 245-251): split, drop empty
segments, and strip one leading literal `ui` segment. -/
def normalizePath (path : String) : List String :=
  let parts := pathSegments path
  if parts.head? = some "ui" then parts.tail else parts

/-- the switch on patch.op (lines 265-286) applied at the final path segment.
add and replace assign (an absent patch value is stored as undefined by the
source, modelled as null; no repository path exercises it); move and copy
are treated as replace when a value is present and otherwise leave the
node; remove deletes the key; test only emits a console warning on
mismatch, never touching the state and never aborting. -/
def applyAtKey (node : JValue) (key : String) (op : PatchOpKind)
    (val : Option JValue) : Except String JValue :=
  match op with
  | .add => setProp node key (val.getD .null)
  | .replace => setProp node key (val.getD .null)
  | .remove => .ok (delProp node key)
  | .move =>
      match val with
      | some x => setProp node key x
      | none => .ok node
  | .copy =>
      match val with
      | some x => setProp node key x
      | none => .ok node
  | .test => .ok node

/-- the navigation loop of applyStateDelta (lines 253-263) followed by the
op switch: descends the normalized path to the parent of the target,
auto-vivifying an empty object over a missing or falsy child
(`if (!current[p[i]]) current[p[i]] = \x7b\x7d`), then applies the op at the last
segment.  With no segments the JS index `pathParts[-1]` is undefined and
the property key coerces to the string "undefined".  A descent step into a
truthy primitive makes the subsequent strict-mode property assignment throw
a TypeError, which aborts the whole batch. -/
def navApply (node : JValue) (parts : List String) (op : PatchOpKind)
    (val : Option JValue) : Except String JValue :=
  match parts with
  | [] => applyAtKey node "undefined" op val
  | [k] => applyAtKey node k op val
  | k :: rest =>
      match getProp node k with
      | some c =>
          if jsTruthy c then (navApply c rest op val).bind (setProp node k)
          else (navApply (.obj []) rest op val).bind (setProp node k)
      | none => (navApply (.obj []) rest op val).bind (setProp node k)

/-- one iteration of the patch loop of applyStateDelta (lines 244-287). -/
def applyPatchOp (state : JValue) (p : PatchOp) : Except String JValue :=
  navApply state (normalizePath p.path) p.op p.value

/-- UIManager.applyStateDelta (lines 241-290): deep copy (identity on the
tree representation), then the operations applied strictly in order; a
thrown TypeError propagates and discards the whole batch. -/
def applyStateDelta (state : JValue) : List PatchOp → Except String JValue
  | [] => .ok state
  | p :: rest =>
      match applyPatchOp state p with
      | .ok s2 => applyStateDelta s2 rest
      | .error e => .error e

/-- content of one entry of a response-messages frame: either a plain string
or an object read through `content?.text` and `content?.content`. -/
inductive MsgContent where
  | strC (s : String)
  | objC (text : Option String) (content : Option String)
deriving DecidableEq, Repr

/-- content extraction of the response-messages branch of the demultiplexer
(useAgUIClientWithUIManager.ts): string content is taken as is, otherwise
the truthy one of content.text and content.content, else the empty
string. -/
def extractMessageContent (c : MsgContent) : String :=
  match c with
  | .strC s => s
  | .objC t c =>
      match t with
      | some ts => if ts = "" then
          (match c with
           | some cs => if cs = "" then "" else cs
           | none => "")
        else ts
      | none =>
          match c with
          | some cs => if cs = "" then "" else cs
          | none => ""

/-- one decoded SSE frame as dispatched by the demultiplexer loop
(useAgUIClientWithUIManager.ts lines 222-335).  state-delta frames are
routed to the same processMessage dispatcher; their state-level semantics
is applyStateDelta, modelled separately above. -/
inductive SSEFrame where
  | textDelta (content : String)
  | uiDirective (d : UIDirective)
  | stateSnapshot (s : SnapshotState)
  | responseMessages (messages : List MsgContent)
  | errorFrame (content : String)
  | doneFrame
deriving Repr

/-- the demultiplexer frame loop: routes ui messages to the manager,
accumulates text-delta content into the response text, lets a
response-messages frame replace the accumulated text, stops at the [DONE]
sentinel, and stops at an error frame after tagging the text. -/
def runFrames (acc : String × UIManager) : List SSEFrame → String × UIManager
  | [] => acc
  | f :: rest =>
      match f with
      | .doneFrame => acc
      | .errorFrame c =>
          ((("Error: " : String) ++ (if c = "" then "Unknown error" else c)), acc.2)
      | .textDelta c => runFrames (acc.1 ++ c, acc.2) rest
      | .uiDirective d =>
          runFrames (acc.1, (processMessage acc.2 (.uiDirective d)).1) rest
      | .stateSnapshot s =>
          runFrames (acc.1, (processMessage acc.2 (.stateSnapshot s)).1) rest
      | .responseMessages msgs =>
          match msgs.head? with
          | some c => runFrames (extractMessageContent c, acc.2) rest
          | none => runFrames acc rest

/-- sendMessage stream handling: the manager is reset at the start of the
turn (`uiManager.reset()` before reading), the accumulated response text
starts empty, then the decoded frames are processed in order. -/
def sendMessageStream (m : UIManager) (frames : List SSEFrame) :
    String × UIManager :=
  runFrames ("", (reset m).1) frames

/-- UIManager together with the scheduled 2000 ms auto-hide timeout of
updateMediaUploadStatus (lines 295-319), modelled as a pending flag.  The
source never stores the timer handle: nothing cancels it and its firing is
an independent later event. -/
structure TimedUIManager where
  state : UIState
  pendingAutoHide : Bool
deriving DecidableEq, Repr

/-- UIManager.updateMediaUploadStatus (lines 295-319): records the status
and, when the status is completed, schedules the auto-hide timeout. -/
def updateMediaUploadStatus (m : TimedUIManager) (status : UploadStatus) :
    TimedUIManager :=
  { state :=
      { m.state with mediaUpload := { m.state.mediaUpload with status := status } }
    pendingAutoHide := m.pendingAutoHide || (status == .completed) }

/-- firing of the scheduled timeout (lines 307-317): the callback
unconditionally overwrites mediaUpload.visible and mediaUpload.status on
whatever state is current, performing no check that the upload is still in
the completed state it was scheduled against. -/
def autoHideFire (m : TimedUIManager) : TimedUIManager :=
  if m.pendingAutoHide then
    { state :=
        { m.state with mediaUpload :=
            { m.state.mediaUpload with visible := false, status := .idle } }
      pendingAutoHide := false }
  else m

/-- reset (lines 128-131) in the timed model: replaces the state, leaving
any scheduled timeout pending (the source does not cancel it). -/
def timedReset (m : TimedUIManager) : TimedUIManager :=
  { state := getInitialState, pendingAutoHide := m.pendingAutoHide }

/-- applyDirective in the timed model: the directive transforms the state
and does not touch the scheduled timeout. -/
def timedApplyDirective (m : TimedUIManager) (d : UIDirective) : TimedUIManager :=
  { state := applyUIDirective m.state d, pendingAutoHide := m.pendingAutoHide }

/-- heap of JS button-map objects, addressed by allocation id: the heap
model needed to observe aliasing between state snapshots. -/
structure ButtonsHeap where
  objs : Nat → List (String × ButtonState)

/-- in-place update of the buttons object at address a. -/
def heapWrite (h : ButtonsHeap) (a : Nat) (v : List (String × ButtonState)) :
    ButtonsHeap :=
  ⟨fun a2 => if a2 = a then v else h.objs a2⟩

/-- a UIState value as held at runtime: content and mediaUpload are replaced
wholesale by every directive that touches them, but the buttons field is a
reference to a shared heap object. -/
structure UIStateRef where
  content : ContentState
  mediaUpload : MediaUploadState
  buttons : Nat

/-- UIManager.applyUIDirective (lines 136-235) at the heap level.  The
method starts with the shallow copy `const newState = \x7b...state\x7d`, so
newState.buttons is the same heap object as state.buttons; the three
button actions then write `newState.buttons[id] = ...`, mutating that
shared object in place.  Content and upload actions assign fresh objects
to newState fields and leave the heap unchanged. -/
def applyUIDirectiveRef (h : ButtonsHeap) (state : UIStateRef)
    (directive : UIDirective) : ButtonsHeap × UIStateRef :=
  let valueView : UIState :=
    { content := state.content
      mediaUpload := state.mediaUpload
      buttons := h.objs state.buttons }
  let result : UIState := applyUIDirective valueView directive
  ( heapWrite h state.buttons result.buttons
  , { content := result.content
      mediaUpload := result.mediaUpload
      buttons := state.buttons } )

/-- show-button directive used in the aliasing scenario. -/
def showConfirmDirective : UIDirective :=
  { action := .showButton
    props := { buttonId := some "confirm", buttonLabel := some "OK"
               action := some "confirm-action" } }

/-- heap holding one empty buttons object at address 0. -/
def heap0 : ButtonsHeap := ⟨fun _ => []⟩

/-- the initial state as held at runtime, its buttons object at address 0. -/
def stateRef0 : UIStateRef :=
  { content := getInitialState.content
    mediaUpload := getInitialState.mediaUpload
    buttons := 0 }

/-- show-upload directive with accept "image/*". -/
def showUploadImage : UIDirective :=
  { action := .showUpload, props := { accept := some "image/*" } }

/-- a confirm button as created by a show-button directive. -/
def confirmButton : ButtonState :=
  { visible := true, enabled := true, label := some "OK"
    action := some "go", style := some .primary }

/-- state holding the confirm button. -/
def confirmState : UIState :=
  { getInitialState with buttons := [("confirm", confirmButton)] }

/-- update-button directive whose buttonLabel and action are present but
empty strings. -/
def emptyStringsUpdate : UIDirective :=
  { action := .updateButton
    props := { buttonId := some "confirm", buttonLabel := some ""
               action := some "" } }

/-- update-button directive that only disables the button. -/
def disableConfirmUpdate : UIDirective :=
  { action := .updateButton
    props := { buttonId := some "confirm", enabled := some false } }

/-- JSON image of the initial UI state, as the state-delta machinery sees it
after the deep copy. -/
def uiInitialJ : JValue :=
  .obj
    [ ("content", .obj [("visible", .bool false), ("text", .str "")])
    , ("mediaUpload", .obj
        [ ("visible", .bool false), ("status", .str "idle")
        , ("acceptedTypes", .arr [.str "image/*"]), ("multiple", .bool false) ])
    , ("buttons", .obj []) ]

/-- JSON state whose content card is hidden, used for the test-mismatch
batch. -/
def hiddenContentJ : JValue :=
  .obj [("content", .obj [("visible", .bool false), ("text", .str "old")])]

/-- the patch batch of the test-mismatch scenario: a test that fails
(content.visible is false, not true) followed by a replace of
content.text. -/
def testMismatchBatch : List PatchOp :=
  [ { op := .test, path := "/content/visible", value := some (.bool true) }
  , { op := .replace, path := "/content/text", value := some (.str "X") } ]

/-- state reached by show-button confirm from the initial state, used as the
starting point of the update-button scenario. -/
def afterShowConfirm : UIState :=
  applyUIDirective getInitialState
    { action := .showButton
      props := { buttonId := some "confirm", buttonLabel := some "OK"
                 action := some "go" } }

/-- the frame sequence of the end-to-end scenario. -/
def helloUploadFrames : List SSEFrame :=
  [.textDelta "Hello", .uiDirective showUploadImage, .doneFrame]

/-- the merged button computed by the update-button branch: enabled is taken
from props whenever defined there, label and action only when present and
non-empty (JS truthiness of the spread guards), style whenever present. -/
def updateButtonMerge (props : DirectiveProps) (b : ButtonState) : ButtonState :=
  { visible := b.visible
    enabled := props.enabled.getD b.enabled
    label :=
      match props.buttonLabel with
      | some l => if l = "" then b.label else some l
      | none => b.label
    action :=
      match props.action with
      | some a => if a = "" then b.action else some a
      | none => b.action
    style := props.style.orElse (fun _ => b.style) }

theorem lookupKey_setKey_self {β : Type} (l : List (String × β)) (k : String)
    (v : β) : lookupKey (setKey l k v) k = some v := by
  induction l with
  | nil => simp [setKey, lookupKey]
  | cons hd tl ih =>
      by_cases h : hd.1 = k
      · simp [setKey, lookupKey, h]
      · simpa [setKey, lookupKey, h] using ih

theorem lookupKey_setKey_ne {β : Type} (l : List (String × β)) (k k2 : String)
    (v : β) (h : k2 ≠ k) : lookupKey (setKey l k v) k2 = lookupKey l k2 := by
  induction l with
  | nil => simp [setKey, lookupKey, Ne.symm h]
  | cons hd tl ih =>
      by_cases h1 : hd.1 = k
      · simp [setKey, lookupKey, h1, Ne.symm h]
      · simp only [setKey, lookupKey, if_neg h1]
        by_cases h2 : hd.1 = k2 <;> simp [h2, ih]

theorem navApply_test_val :
    ∀ (parts : List String) (node : JValue) (v v2 : Option JValue),
      navApply node parts .test v = navApply node parts .test v2
  | [], _, _, _ => rfl
  | [_], _, _, _ => rfl
  | k :: k2 :: rest, node, v, v2 => by
      simp only [navApply]
      cases h : getProp node k with
      | none => rw [navApply_test_val (k2 :: rest) (JValue.obj []) v v2]
      | some c =>
          dsimp only
          by_cases ht : jsTruthy c = true
          · rw [if_pos ht, if_pos ht, navApply_test_val (k2 :: rest) c v v2]
          · rw [if_neg ht, if_neg ht,
                navApply_test_val (k2 :: rest) (JValue.obj []) v v2]

/-- C1: the claim states that every Reducer mutation is copy-on-write and
that the buttons mapping of a pre-call snapshot is unchanged by
show-button, hide-button and update-button.  The code violates this: the
shallow copy in applyUIDirective shares the buttons object with the prior
snapshot, and show-button writes into that shared object in place, so a
snapshot taken before the call observes the new button.  This theorem
evaluates the heap-level semantics at the failing input: the snapshot's
buttons object is empty before the call and holds the confirm button after
it. -/
theorem c1_prior_snapshot_buttons_mutated :
    heap0.objs stateRef0.buttons = []
    ∧ (applyUIDirectiveRef heap0 stateRef0 showConfirmDirective).1.objs
        stateRef0.buttons
        = [("confirm",
            { visible := true, enabled := true, label := some "OK"
              action := some "confirm-action", style := some .primary })]
    ∧ (applyUIDirectiveRef heap0 stateRef0 showConfirmDirective).1.objs
        stateRef0.buttons
        ≠ heap0.objs stateRef0.buttons := by
  refine ⟨rfl, rfl, ?_⟩
  decide

/-- C2: the claim states that a reset or a fresh show-upload applied before
the 2000 ms auto-hide timer fires suppresses the stale timer's effect.
The code violates the show-upload half: the timer callback unconditionally
overwrites mediaUpload.visible and status, so a fresh show-upload applied
before the timer fires is hidden by it.  (The reset half happens to hold
only because the overwrite is idempotent on the initial state, as the last
conjunct shows.)  This theorem evaluates the code at the failing input:
updateMediaUploadStatus('completed'), then show-upload, then the timer
fires. -/
theorem c2_stale_timer_hides_fresh_upload :
    (timedApplyDirective
        (updateMediaUploadStatus ⟨getInitialState, false⟩ .completed)
        showUploadImage).state.mediaUpload.visible = true
    ∧ (autoHideFire (timedApplyDirective
        (updateMediaUploadStatus ⟨getInitialState, false⟩ .completed)
        showUploadImage)).state.mediaUpload.visible = false
    ∧ (autoHideFire (timedApplyDirective
        (updateMediaUploadStatus ⟨getInitialState, false⟩ .completed)
        showUploadImage)).state
        ≠ (timedApplyDirective
            (updateMediaUploadStatus ⟨getInitialState, false⟩ .completed)
            showUploadImage).state
    ∧ (autoHideFire (timedReset
        (updateMediaUploadStatus ⟨getInitialState, false⟩ .completed))).state
        = getInitialState := by
  refine ⟨rfl, rfl, ?_, rfl⟩
  decide

/-- C4: applying a state-snapshot whose state is wrapped as
`\x7bui: S\x7d` and one whose state is the flat S yield identical resulting
states (and identical notifications), for every prior manager state. -/
theorem c4_snapshot_shape_equivalence (m : UIManager) (S : UIState) :
    processMessage m (.stateSnapshot (.nested S))
      = processMessage m (.stateSnapshot (.flat S)) := rfl

/-- C9: reset() always leaves the state structurally equal to the initial
state — content hidden with empty text, mediaUpload hidden and idle with
acceptedTypes ["image/*"] and multiple false, buttons empty — and every
subscriber is notified with that state, whatever the prior state was. -/
theorem c9_reset_yields_initial_state (m : UIManager) :
    (reset m).1.state = getInitialState
    ∧ getInitialState
        = { content := { text := some "", visible := false }
            mediaUpload :=
              { visible := false, status := .idle
                acceptedTypes := some ["image/*"], multiple := some false
                label := none }
            buttons := [] }
    ∧ (reset m).2 = m.listeners.map (fun l => (l, getInitialState)) :=
  ⟨rfl, rfl, rfl⟩

/-- C3 counterexample: the claim says update-button merges exactly the
fields present in props, but a buttonLabel or action that is present as
the empty string is falsy in the source's spread guards and is not merged:
updating the confirm button with buttonLabel "" and action "" leaves the
whole state unchanged, its label still "OK" rather than "". -/
theorem c3_counterexample_empty_string_not_merged :
    emptyStringsUpdate.props.buttonLabel = some ""
    ∧ emptyStringsUpdate.props.action = some ""
    ∧ applyUIDirective confirmState emptyStringsUpdate = confirmState
    ∧ lookupKey confirmState.buttons "confirm" = some confirmButton
    ∧ confirmButton.label = some "OK"
    ∧ (some "OK" : Option String) ≠ some "" := by
  refine ⟨rfl, rfl, ?_, rfl, rfl, by decide⟩
  decide

/-- C3 (amended): for a state containing buttons[id] and an update-button
directive with that buttonId, the directive merges enabled whenever it is
defined in props (including false), merges buttonLabel into label and
action only when they are present and non-empty (JS truthiness), merges
style when present, and leaves every non-merged field, every other button,
and the rest of the state unchanged. -/
theorem c3_update_button_merges_truthy_fields (s : UIState)
    (props : DirectiveProps) (id : String) (b : ButtonState)
    (hid : props.buttonId = some id) (hne : id ≠ "")
    (hb : lookupKey s.buttons id = some b) :
    lookupKey (applyUIDirective s { action := .updateButton, props := props }).buttons id
      = some (updateButtonMerge props b)
    ∧ (∀ k, k ≠ id →
        lookupKey (applyUIDirective s { action := .updateButton, props := props }).buttons k
          = lookupKey s.buttons k)
    ∧ (applyUIDirective s { action := .updateButton, props := props }).content
        = s.content
    ∧ (applyUIDirective s { action := .updateButton, props := props }).mediaUpload
        = s.mediaUpload := by
  have hstep :
      applyUIDirective s { action := .updateButton, props := props }
        = { s with buttons := setKey s.buttons id (updateButtonMerge props b) } := by
    unfold applyUIDirective updateButtonMerge
    rw [hid]
    dsimp only
    rw [if_neg hne, hb]
  refine ⟨?_, ?_, ?_, ?_⟩
  · rw [hstep]
    exact lookupKey_setKey_self s.buttons id _
  · intro k hk
    rw [hstep]
    exact lookupKey_setKey_ne s.buttons id k _ hk
  · rw [hstep]
  · rw [hstep]

/-- C3 witness: show-button confirm followed by update-button with
enabled false flips only enabled, keeping label, action and style. -/
theorem c3_witness :
    disableConfirmUpdate.props.buttonId = some "confirm"
    ∧ ("confirm" : String) ≠ ""
    ∧ lookupKey afterShowConfirm.buttons "confirm" = some confirmButton
    ∧ lookupKey (applyUIDirective afterShowConfirm disableConfirmUpdate).buttons "confirm"
        = some
          { visible := true, enabled := false, label := some "OK"
            action := some "go", style := some .primary } :=
  ⟨rfl, by decide, by decide,
    (c3_update_button_merges_truthy_fields afterShowConfirm
      disableConfirmUpdate.props "confirm" confirmButton rfl (by decide)
      (by decide)).1⟩

/-- C5 counterexample: the claim's general clause says a path with the ui
prefix behaves identically to the same path without it, but normalization
strips only one leading ui segment: /ui/ui/x (the path /ui/x with the ui
prefix) writes under a literal ui key while /ui/x writes at the top level,
so the two results differ. -/
theorem c5_counterexample_double_ui :
    pathSegments "/ui/ui/x" = "ui" :: pathSegments "/ui/x"
    ∧ applyStateDelta (.obj [])
        [{ op := .add, path := "/ui/ui/x", value := some (.bool true) }]
      ≠ applyStateDelta (.obj [])
        [{ op := .add, path := "/ui/x", value := some (.bool true) }] := by
  refine ⟨by decide, ?_⟩
  intro h
  rw [show applyStateDelta (.obj [])
        [{ op := .add, path := "/ui/ui/x", value := some (.bool true) }]
      = Except.ok (JValue.obj [("ui", JValue.obj [("x", JValue.bool true)])])
      from rfl,
      show applyStateDelta (.obj [])
        [{ op := .add, path := "/ui/x", value := some (.bool true) }]
      = Except.ok (JValue.obj [("x", JValue.bool true)]) from rfl] at h
  have h2 := congrArg
    (fun e => match e with | Except.ok v => getProp v "x" | _ => none) h
  exact Option.noConfusion h2

/-- C5 (amended): a state-delta path carrying the leading ui segment and
the same path without it yield identical results for every starting state,
op and value, provided the path without the prefix does not itself begin
with a literal ui segment (normalization strips exactly one leading ui). -/
theorem c5_ui_namespace_strip (s : JValue) (op : PatchOpKind)
    (v : Option JValue) (q p : String)
    (hq : pathSegments q = "ui" :: pathSegments p)
    (hp : (pathSegments p).head? ≠ some "ui") :
    applyStateDelta s [{ op := op, path := q, value := v }]
      = applyStateDelta s [{ op := op, path := p, value := v }] := by
  have hnq : normalizePath q = pathSegments p := by
    unfold normalizePath
    rw [hq]
    simp
  have hnp : normalizePath p = pathSegments p := by
    unfold normalizePath
    simp [hp]
  unfold applyStateDelta applyPatchOp
  rw [hnq, hnp]

/-- C5 witness: the claim's concrete instance, /ui/mediaUpload/visible
versus /mediaUpload/visible on the initial state. -/
theorem c5_witness :
    pathSegments "/ui/mediaUpload/visible"
      = "ui" :: pathSegments "/mediaUpload/visible"
    ∧ (pathSegments "/mediaUpload/visible").head? ≠ some "ui"
    ∧ applyStateDelta uiInitialJ
        [{ op := .replace, path := "/ui/mediaUpload/visible"
           value := some (.bool true) }]
      = applyStateDelta uiInitialJ
        [{ op := .replace, path := "/mediaUpload/visible"
           value := some (.bool true) }] :=
  ⟨by decide, by decide,
    c5_ui_namespace_strip uiInitialJ .replace (some (.bool true)) _ _
      (by decide) (by decide)⟩

/-- C6: a failing test operation in a state-delta batch does not abort the
remaining operations.  First conjunct: the result of the batch never
depends on the tested value, so a mismatching test behaves exactly like a
matching one and the operations after it are applied either way (the
mismatch only emits a console warning).  Second conjunct: the claim's
concrete batch — a test of content.visible against true where it is false,
then a replace of content.text — still updates content.text to "X". -/
theorem c6_failing_test_does_not_abort :
    (∀ (s : JValue) (path : String) (v v2 : Option JValue)
        (rest : List PatchOp),
        applyStateDelta s ({ op := .test, path := path, value := v } :: rest)
          = applyStateDelta s ({ op := .test, path := path, value := v2 } :: rest))
    ∧ applyStateDelta hiddenContentJ testMismatchBatch
        = .ok (.obj [("content",
            .obj [("visible", .bool false), ("text", .str "X")])]) := by
  constructor
  · intro s path v v2 rest
    unfold applyStateDelta applyPatchOp
    rw [navApply_test_val (normalizePath path) s v v2]
  · rfl

/-- C7: unknown inputs are silent no-ops.  A processMessage call whose
runtime type tag is none of the three handled tags does nothing; a
directive with an unknown action returns the state unchanged; show-button
without props.buttonId, and hide-button or update-button whose buttonId is
absent or names no existing button, all return the state unchanged.  The
embedding is total, mirroring that none of these code paths throws. -/
theorem c7_unknown_inputs_are_no_ops :
    (∀ (m : UIManager) (t : String),
        t ≠ "ui-directive" → t ≠ "state-snapshot" → t ≠ "state-delta" →
        processMessage m (.unrecognized t) = (m, []))
    ∧ (∀ (s : UIState) (a : String) (props : DirectiveProps),
        applyUIDirective s { action := .other a, props := props } = s)
    ∧ (∀ (s : UIState) (props : DirectiveProps), props.buttonId = none →
        applyUIDirective s { action := .showButton, props := props } = s)
    ∧ (∀ (s : UIState) (props : DirectiveProps), props.buttonId = none →
        applyUIDirective s { action := .hideButton, props := props } = s
        ∧ applyUIDirective s { action := .updateButton, props := props } = s)
    ∧ (∀ (s : UIState) (props : DirectiveProps) (id : String),
        props.buttonId = some id → lookupKey s.buttons id = none →
        applyUIDirective s { action := .hideButton, props := props } = s
        ∧ applyUIDirective s { action := .updateButton, props := props } = s) := by
  refine ⟨fun m t _ _ _ => rfl, fun s a props => rfl, ?_, ?_, ?_⟩
  · intro s props h
    unfold applyUIDirective
    rw [h]
  · intro s props h
    constructor <;> (unfold applyUIDirective; rw [h])
  · intro s props id h hlk
    constructor <;>
      ( unfold applyUIDirective
        rw [h]
        dsimp only
        by_cases hid : id = ""
        · rw [if_pos hid]
        · rw [if_neg hid, hlk] )

/-- C7 witness: concrete no-ops — an unrecognized tool-call message, a
show-button with no buttonId, and hide-button / update-button on the
missing id ghost. -/
theorem c7_witness :
    processMessage { state := getInitialState, listeners := [0] }
        (.unrecognized "tool-call")
      = ({ state := getInitialState, listeners := [0] }, [])
    ∧ applyUIDirective getInitialState { action := .showButton, props := {} }
        = getInitialState
    ∧ applyUIDirective getInitialState
        { action := .hideButton, props := { buttonId := some "ghost" } }
        = getInitialState
    ∧ applyUIDirective getInitialState
        { action := .updateButton, props := { buttonId := some "ghost" } }
        = getInitialState :=
  ⟨c7_unknown_inputs_are_no_ops.1 _ "tool-call" (by decide) (by decide)
      (by decide),
   c7_unknown_inputs_are_no_ops.2.2.1 getInitialState {} rfl,
   (c7_unknown_inputs_are_no_ops.2.2.2.2 getInitialState
      { buttonId := some "ghost" } "ghost" rfl rfl).1,
   (c7_unknown_inputs_are_no_ops.2.2.2.2 getInitialState
      { buttonId := some "ghost" } "ghost" rfl rfl).2⟩

/-- C8: feeding the demultiplexer the frames text-delta "Hello",
ui-directive show-upload with accept "image/*", then the [DONE] sentinel
yields accumulated response text "Hello" and a final mediaUpload state
visible, idle, acceptedTypes ["image/*"], multiple false, whatever the
manager's state was before the turn. -/
theorem c8_end_to_end_hello_upload (m : UIManager) :
    (sendMessageStream m helloUploadFrames).1 = "Hello"
    ∧ (sendMessageStream m helloUploadFrames).2.state.mediaUpload
        = { visible := true, status := .idle
            acceptedTypes := some ["image/*"], multiple := some false
            label := none } :=
  ⟨rfl, rfl⟩

theorem count_pair_map_nodup (s2 : UIState) (ls : List Nat) :
    ∀ (l : Nat), ls.Nodup → l ∈ ls →
      List.count (l, s2) (ls.map (fun x => (x, s2))) = 1 := by
  induction ls with
  | nil => intro l _ hl; exact absurd hl (List.not_mem_nil l)
  | cons x rest ih =>
      intro l hnd hl
      have hnd2 := List.nodup_cons.mp hnd
      simp only [List.map_cons, List.count_cons]
      rcases List.mem_cons.mp hl with h | h
      · subst h
        have hzero : List.count (l, s2) (rest.map (fun y => (y, s2))) = 0 := by
          rw [List.count_eq_zero]
          intro hmem
          rcases List.mem_map.mp hmem with ⟨y, hy, hEq⟩
          have hyl : y = l := congrArg Prod.fst hEq
          exact hnd2.1 (hyl ▸ hy)
        rw [hzero]
        simp
      · have hne : l ≠ x := fun he => hnd2.1 (he ▸ h)
        have hbf : ((x, s2) == (l, s2)) = false := by
          simp [Ne.symm hne]
        rw [hbf]
        simp [ih l hnd2.2 h]

/-- C10: every applyDirective call notifies exactly the currently
subscribed listeners, in order, each with the post-call state; under the
Set semantics of the listener registry (no duplicates) every listener is
notified exactly once, even when the directive is a no-op. -/
theorem c10_applyDirective_notifies_each_listener_once (m : UIManager)
    (d : UIDirective) :
    (applyDirective m d).2
      = m.listeners.map (fun l => (l, (applyDirective m d).1.state))
    ∧ (m.listeners.Nodup → ∀ l ∈ m.listeners,
        List.count (l, (applyDirective m d).1.state) (applyDirective m d).2
          = 1) := by
  constructor
  · rfl
  · intro hnd l hl
    have hmap : (applyDirective m d).2
        = m.listeners.map (fun x => (x, (applyDirective m d).1.state)) := rfl
    rw [hmap]
    exact count_pair_map_nodup _ m.listeners l hnd hl

/-- C10 witness: two subscribed listeners, a directive with an unknown
action (a no-op that leaves the state at the initial state): each listener
is notified exactly once with the post-call state. -/
theorem c10_witness :
    ([0, 1] : List Nat).Nodup
    ∧ (0 : Nat) ∈ ([0, 1] : List Nat)
    ∧ (applyDirective { state := getInitialState, listeners := [0, 1] }
        { action := .other "mystery", props := {} }).1.state = getInitialState
    ∧ List.count
        (0, (applyDirective { state := getInitialState, listeners := [0, 1] }
              { action := .other "mystery", props := {} }).1.state)
        (applyDirective { state := getInitialState, listeners := [0, 1] }
          { action := .other "mystery", props := {} }).2 = 1 :=
  ⟨by decide, by decide, rfl,
    (c10_applyDirective_notifies_each_listener_once
        { state := getInitialState, listeners := [0, 1] }
        { action := .other "mystery", props := {} }).2 (by decide) 0
      (by decide)⟩
